import Mathlib

/-!
Verification of the selection-list prompter (`src/shared/ui/pickerPrompter.ts`) and the
toggle button (`QuickInputToggleButton`).  The TypeScript is shallowly embedded: JavaScript
runtime values become the inductive `JsValue`, the picker's mutable fields become an explicit
`PickerState` record threaded through the translated methods, promises become their settled
outcome (`Except` for possibly-rejecting ones), and UI event handlers become functions from
the event to the value the handler resolves with.
-/

/-- JS runtime values, as far as the picker code inspects them: strings, numbers, booleans,
`null`, `undefined`, functions and objects (which compare by identity, modelled with an `id`
tag), and symbols.  Object fields are kept so `JSON.stringify` can be modelled. -/
inductive JsValue where
  | str (s : String)
  | num (n : Int)
  | bool (b : Bool)
  | null
  | undef
  | func (id : Nat)
  | sym (name : String)
  | obj (fields : List (String × JsValue)) (id : Nat)

def jsonQuote (s : String) : String := "\"" ++ s ++ "\""

mutual

/-- Model of `JSON.stringify`: `none` is the `undefined` result produced for functions,
symbols and `undefined`; object fields whose values stringify to `undefined` are omitted. -/
def jsonStringify : JsValue → Option String
  | JsValue.str s => some (jsonQuote s)
  | JsValue.num n => some (toString n)
  | JsValue.bool true => some "true"
  | JsValue.bool false => some "false"
  | JsValue.null => some "null"
  | JsValue.undef => none
  | JsValue.func _ => none
  | JsValue.sym _ => none
  | JsValue.obj fields _ =>
      some ("\x7b" ++ String.intercalate "," (jsonFields fields) ++ "\x7d")

/-- Serialises the fields of an object, dropping the ones `JSON.stringify` omits. -/
def jsonFields : List (String × JsValue) → List String
  | [] => []
  | (k, v) :: rest =>
      match jsonStringify v with
      | some s => (jsonQuote k ++ ":" ++ s) :: jsonFields rest
      | none => jsonFields rest

end

/-- Model of JS strict equality on the values above.  Objects and functions compare by
identity (their `id` tag); primitives compare by value. -/
def jsStrictEq : JsValue → JsValue → Bool
  | JsValue.str a, JsValue.str b => a == b
  | JsValue.num a, JsValue.num b => a == b
  | JsValue.bool a, JsValue.bool b => a == b
  | JsValue.null, JsValue.null => true
  | JsValue.undef, JsValue.undef => true
  | JsValue.func i, JsValue.func j => i == j
  | JsValue.sym a, JsValue.sym b => a == b
  | JsValue.obj _ i, JsValue.obj _ j => i == j
  | _, _ => false

/-- Modelled from the spec: the wizard control signals live in `wizards/wizard.ts`, which is
not among the sources here.  Spec §4.1: "Three signals: BACK ..., EXIT ..., RETRY ...",
"sentinel values ... distinguished from any legitimate answer value".  They are modelled as
three distinct sentinel objects (identity ids 9001-9003, never used by ordinary data). -/
def WIZARD_BACK : JsValue := JsValue.obj [] 9001

/-- Modelled from the spec: the EXIT sentinel, see `WIZARD_BACK`. -/
def WIZARD_EXIT : JsValue := JsValue.obj [] 9002

/-- Modelled from the spec: the RETRY sentinel, see `WIZARD_BACK`. -/
def WIZARD_RETRY : JsValue := JsValue.obj [] 9003

/-- The `CUSTOM_USER_INPUT` symbol from `pickerPrompter.ts` (`export const CUSTOM_USER_INPUT
= Symbol()`). -/
def CUSTOM_USER_INPUT : JsValue := JsValue.sym "customUserInput"

/-- Modelled from the spec: membership in the closed set of control signals
(`isWizardControl` in the missing `wizards/wizard.ts`; spec §9: "a closed discriminated
union checked at every consumption point"). -/
def isWizardControl (v : JsValue) : Bool :=
  jsStrictEq v WIZARD_BACK || jsStrictEq v WIZARD_EXIT || jsStrictEq v WIZARD_RETRY

/-- Modelled from the spec: a `PromptResult` is a real answer iff it is neither a control
signal nor `undefined` (spec §4.1 and the `isValidResponse` import used by the sources). -/
def isValidResponse (v : JsValue) : Bool :=
  !jsStrictEq v JsValue.undef && !isWizardControl v

/-- The `data` field of a `DataQuickPickItem`: either a plain value or a zero-argument
function returning a promise (`() => Promise<...>`).  The function case is modelled by the
value its promise resolves to, which is all the picker code observes of it. -/
inductive QuickPickData where
  | val (v : JsValue)
  | thunk (result : JsValue)

/-- Value the picker obtains from `data` after resolving it (`result instanceof Function ?
await result() : result`). -/
def QuickPickData.resolved : QuickPickData → JsValue
  | QuickPickData.val v => v
  | QuickPickData.thunk r => r

/-- Truth of `typeof item.data === 'object'` (objects and `null`; functions are not
`'object'`). -/
def QuickPickData.typeofObject : QuickPickData → Bool
  | QuickPickData.val (JsValue.obj _ _) => true
  | QuickPickData.val JsValue.null => true
  | QuickPickData.val _ => false
  | QuickPickData.thunk _ => false

/-- Truth of `typeof item.data === 'function'`. -/
def QuickPickData.typeofFunction : QuickPickData → Bool
  | QuickPickData.thunk _ => true
  | QuickPickData.val (JsValue.func _) => true
  | QuickPickData.val _ => false

/-- Underlying value of `item.data`, used by the branches of `recoverItemFromData` that
only run for non-function data. -/
def QuickPickData.asJsValue : QuickPickData → JsValue
  | QuickPickData.val v => v
  | QuickPickData.thunk _ => JsValue.undef

/-- `DataQuickPickItem<T>` from `pickerPrompter.ts`.  `onClick` records whether the optional
handler is present (its body is an opaque side effect); optional boolean fields default to
the falsy `undefined`. -/
structure DataQuickPickItem where
  label : String
  description : Option String := none
  detail : Option String := none
  data : QuickPickData
  invalidSelection : Bool := false
  onClick : Bool := false
  skipEstimate : Bool := false
  alwaysShow : Bool := false

/-- The fields of `ExtendedQuickPickOptions` the translated methods read. -/
structure ExtendedQuickPickOptions where
  compare : Option (DataQuickPickItem → DataQuickPickItem → Int) := none
  placeholderItem : Option DataQuickPickItem := none
  errorItem : Option DataQuickPickItem := none
  showSelectedPreviously : Option Bool := none

/-- Mutable state of a `QuickPickPrompter` and its underlying `QuickPick`: the item list,
the highlighted (`active`) items, the `busy`/`enabled` flags, the filter-box `value`, the
step display, and the prompter's `isShowingPlaceholder` flag.  Entries of `activeItems` are
`Option`s because the code can assign `[this.quickPick.items[0]]` with an empty item list,
which in JS stores a one-element array holding `undefined` (modelled as `none`). -/
structure PickerState where
  items : List DataQuickPickItem := []
  activeItems : List (Option DataQuickPickItem) := []
  busy : Bool := false
  enabled : Bool := true
  value : String := ""
  step : Option Int := none
  totalSteps : Option Int := none
  isShowingPlaceholder : Bool := false

/-- Events an `acceptItems` call produces, in order: each fired per-item `onClick`, the
check of `selectedItems.some(item => item.invalidSelection)`, and (when that check passes)
the resolution of the prompt promise with the selected items. -/
inductive AcceptEvent where
  | clickFired (item : DataQuickPickItem)
  | invalidCheck (anyInvalid : Bool)
  | resolved (items : List DataQuickPickItem)

/-- `acceptItems` from `pickerPrompter.ts`, as the ordered trace of what it does for a given
`picker.selectedItems`: an empty selection returns immediately; otherwise every selected
item's `onClick` fires, then the invalid-selection check runs, then (only if no selected
item is invalid) the promise is resolved with the selection. -/
def acceptItems (selectedItems : List DataQuickPickItem) : List AcceptEvent :=
  if selectedItems.isEmpty then []
  else
    ((selectedItems.filter (fun item => item.onClick)).map AcceptEvent.clickFired)
      ++ AcceptEvent.invalidCheck (selectedItems.any (fun item => item.invalidSelection))
      :: (if selectedItems.any (fun item => item.invalidSelection) then []
          else [AcceptEvent.resolved selectedItems])

/-- Extracts the resolution value from an accept event, if it is one. -/
def resolvedValue : AcceptEvent → Option (List DataQuickPickItem)
  | AcceptEvent.resolved xs => some xs
  | _ => none

/-- Value an accept event resolves the prompt promise with (`none` when `acceptItems`
returns without resolving, leaving the prompt waiting). -/
def acceptOutcome (selectedItems : List DataQuickPickItem) : Option (List DataQuickPickItem) :=
  (acceptItems selectedItems).findSome? resolvedValue

/-- `castDatumToItems` from `pickerPrompter.ts`. -/
def castDatumToItems (datum : List JsValue) : List DataQuickPickItem :=
  datum.map (fun data => { label := "", data := QuickPickData.val data })

/-- `QuickInputToggleButton` from the buttons module: only its toggle state matters to the
picker (its `onCallback`/`offCallBack` options are opaque host side effects). -/
structure QuickInputToggleButton where
  state : Bool := false

/-- `QuickInputToggleButton.onClick`: swaps the state and returns `WIZARD_RETRY`. -/
def QuickInputToggleButton.onClick (b : QuickInputToggleButton) :
    QuickInputToggleButton × JsValue :=
  ({ state := !b.state }, WIZARD_RETRY)

/-- Terminating-or-not events delivered to the handlers `promptUser` registers on the
picker: an accept (with the selection current at that moment), a hide, the VS Code back
button, a toggle button, or some other button with an `onClick` handler (`none` models both
a button without a handler and a handler returning `undefined`). -/
inductive PickerEvent where
  | didAccept (selectedItems : List DataQuickPickItem)
  | didHide
  | didTriggerBackButton
  | didTriggerToggleButton (b : QuickInputToggleButton)
  | didTriggerCustomButton (onClickResult : Option JsValue)

/-- Value with which a single event makes the `promptUser` promise resolve (`none`: the
handler returns without resolving and the prompt keeps waiting).  Mirrors the handlers
registered in `promptUser` in `pickerPrompter.ts`. -/
def handlePickerEvent : PickerEvent → Option (List DataQuickPickItem)
  | PickerEvent.didAccept sel => acceptOutcome sel
  | PickerEvent.didHide => some (castDatumToItems [WIZARD_EXIT])
  | PickerEvent.didTriggerBackButton => some (castDatumToItems [WIZARD_BACK])
  | PickerEvent.didTriggerToggleButton b =>
      some (castDatumToItems [(QuickInputToggleButton.onClick b).2])
  | PickerEvent.didTriggerCustomButton r =>
      match r with
      | some v => some (castDatumToItems [v])
      | none => none

/-- Settled outcome of the `promptUser` promise: the value it resolved with, and whether
`picker.dispose()` ran (the `.finally` attached to the promise). -/
structure PromptOutcome where
  result : List DataQuickPickItem
  disposed : Bool

/-- The `promptUser` function of `pickerPrompter.ts` run against a sequence of picker
events: the promise settles on the first event whose handler resolves it (later `resolve`
calls are no-ops on an already-settled JS promise), and the `.finally` disposes the picker.
`none` means no event resolved the promise, which therefore is still pending. -/
def promptUser (events : List PickerEvent) : Option PromptOutcome :=
  (events.findSome? handlePickerEvent).map (fun r => { result := r, disposed := true })

/-- `picker.items.concat(items).sort(this.options.compare)`.  With a comparator, JS `sort`
is a stable sort by `compare ≤ 0`; without one, the default comparator compares
`String(item)`, which is `"[object Object]"` for every item, so the stable sort leaves the
array unchanged. -/
def sortItems (compare : Option (DataQuickPickItem → DataQuickPickItem → Int))
    (items : List DataQuickPickItem) : List DataQuickPickItem :=
  match compare with
  | none => items
  | some cmp => items.mergeSort (fun a b => cmp a b ≤ 0)

/-- `QuickPickPrompter.selectItems`: highlights the items of the current list whose label is
among the given items' labels, falling back to `[this.quickPick.items[0]]` when none match.
`none` entries of the argument model `undefined` entries, which carry no label. -/
def selectItems (st : PickerState) (items : List (Option DataQuickPickItem)) : PickerState :=
  let selected := items.filterMap (Option.map (fun item => item.label))
  let active := st.items.filter (fun item => selected.contains item.label)
  if active.isEmpty then { st with activeItems := [st.items.get? 0] }
  else { st with activeItems := active.map some }

/-- `QuickPickPrompter.appendItems`: concatenates and sorts, swaps in the placeholder item
when the merge is empty and the picker is not busy, then re-selects the previously
highlighted items. -/
def appendItems (opts : ExtendedQuickPickOptions) (st : PickerState)
    (items : List DataQuickPickItem) : PickerState :=
  let previousSelected := st.activeItems
  let st1 := { st with items := sortItems opts.compare (st.items ++ items) }
  let st2 :=
    if st1.items.isEmpty && !st1.busy then
      { st1 with
        isShowingPlaceholder := true
        items :=
          match opts.placeholderItem with
          | some p => [p]
          | none => [] }
    else st1
  selectItems st2 previousSelected

/-- `QuickPickPrompter.clearItems`. -/
def clearItems (st : PickerState) : PickerState :=
  { st with items := [], isShowingPlaceholder := false }

/-- The three item-supply modes of `loadItems`.  Promises and async-iterator steps are
represented by their settled outcome: `Except.error` is a rejection. -/
inductive ItemLoadTypes where
  | array (items : List DataQuickPickItem)
  | promise (result : Except String (List DataQuickPickItem))
  | asyncIterable (pages : List (Except String (List DataQuickPickItem)))

/-- The `while (true)` loop of `loadItems` over an async iterator: each resolved page is
appended; a rejected `iterator.next()` throws out of the loop, carrying the picker state at
that point. -/
def loadPages (opts : ExtendedQuickPickOptions) :
    PickerState → List (Except String (List DataQuickPickItem)) →
      Except (String × PickerState) PickerState
  | st, [] => Except.ok st
  | st, Except.ok page :: rest => loadPages opts (appendItems opts st page) rest
  | st, Except.error e :: _ => Except.error (e, st)

/-- Outcome of a `loadItems` call: the picker state while the load is in flight (right
after `busy`/`enabled` are set), and the settled result of the returned promise — `ok` with
the final state, or `error` when a rejecting source makes `loadItems` itself reject, with
the state left behind at the throw. -/
structure LoadOutcome where
  loadingState : PickerState
  result : Except (String × PickerState) PickerState

/-- `QuickPickPrompter.loadItems`: clears a showing placeholder, sets `busy = true` and
`enabled = !!disableInput`, appends the supplied items (pagewise for async iterables), and
on completion sets `busy = false`, `enabled = true` and appends `[]` once more (which is
what triggers the placeholder when everything stayed empty).  There is no catch anywhere:
a rejecting source propagates out. -/
def loadItems (opts : ExtendedQuickPickOptions) (st : PickerState) (items : ItemLoadTypes)
    (disableInput : Option Bool := none) : LoadOutcome :=
  let st0 := if st.isShowingPlaceholder then clearItems st else st
  let st1 := { st0 with busy := true, enabled := disableInput.getD false }
  let loaded : Except (String × PickerState) PickerState :=
    match items with
    | ItemLoadTypes.array xs => Except.ok (appendItems opts st1 xs)
    | ItemLoadTypes.promise (Except.ok xs) => Except.ok (appendItems opts st1 xs)
    | ItemLoadTypes.promise (Except.error e) => Except.error (e, st1)
    | ItemLoadTypes.asyncIterable pages => loadPages opts st1 pages
  { loadingState := st1
    result := loaded.map (fun s => appendItems opts { s with busy := false, enabled := true } []) }

/-- Checks that an item source settles with zero total items (no page rejects and every
page is empty). -/
def emptySource : ItemLoadTypes → Bool
  | ItemLoadTypes.array xs => xs.isEmpty
  | ItemLoadTypes.promise (Except.ok xs) => xs.isEmpty
  | ItemLoadTypes.promise (Except.error _) => false
  | ItemLoadTypes.asyncIterable pages =>
      pages.all (fun p =>
        match p with
        | Except.ok xs => xs.isEmpty
        | Except.error _ => false)

/-- `recoverItemFromData` from `pickerPrompter.ts`: finds the first item whose data matches
the raw response — by `JSON.stringify` comparison when `typeof item.data === 'object'`,
never for function data, and by strict equality otherwise. -/
def recoverItemFromData (data : JsValue) (items : List DataQuickPickItem) :
    Option DataQuickPickItem :=
  let stringified := jsonStringify data
  items.find? (fun item =>
    if item.data.typeofObject then stringified == jsonStringify item.data.asJsValue
    else if item.data.typeofFunction then false
    else jsStrictEq data item.data.asJsValue)

/-- The `selectedPreviously` localized string (its module is not among the sources; the
exact text is irrelevant, only that it is appended to `detail`). -/
def selectedPreviously : String := "Selected previously"

/-- Mutation performed by `setLastResponse` under `showSelectedPreviously`: every item whose
label is among the active labels gets " (Selected previously)" appended to its detail. -/
def markSelectedPreviously (labels : List String) (item : DataQuickPickItem) :
    DataQuickPickItem :=
  if labels.contains item.label then
    { item with detail := some ((item.detail.getD "") ++ " (" ++ selectedPreviously ++ ")") }
  else item

/-- Tail of `setLastResponse`: the `showSelectedPreviously` detail mutation (the active
items are elements of `items`, so both lists see it), then the fallback to
`[this.quickPick.items[0]]` when nothing is highlighted. -/
def finishLastResponse (opts : ExtendedQuickPickOptions) (st : PickerState) : PickerState :=
  let st1 :=
    if opts.showSelectedPreviously.getD false then
      let labels := st.activeItems.filterMap (Option.map (fun item => item.label))
      { st with
        items := st.items.map (markSelectedPreviously labels)
        activeItems := st.activeItems.map (Option.map (markSelectedPreviously labels)) }
    else st
  if st1.activeItems.isEmpty then { st1 with activeItems := [st1.items.get? 0] } else st1

/-- Argument of `setLastResponse`: `T | DataQuickPickItem<T> | undefined`, dispatched by the
`isDataQuickPickItem` shape test. -/
inductive LastResponse where
  | raw (data : JsValue)
  | item (picked : DataQuickPickItem)

/-- `QuickPickPrompter.setLastResponse`: `undefined` does nothing; a raw value is recovered
via `recoverItemFromData` and its label selects the active items (`item.label ===
recovered?.label` is false when recovery failed); an item selects by its own label; then
the detail mutation and the first-item fallback run. -/
def setLastResponse (opts : ExtendedQuickPickOptions) (st : PickerState)
    (picked : Option LastResponse) : PickerState :=
  match picked with
  | none => st
  | some (LastResponse.raw data) =>
      let recovered := recoverItemFromData data st.items
      finishLastResponse opts
        { st with
          activeItems :=
            (st.items.filter (fun item =>
              (recovered.map (fun r => r.label)) == some item.label)).map some }
  | some (LastResponse.item pickedItem) =>
      finishLastResponse opts
        { st with
          activeItems :=
            (st.items.filter (fun item => item.label == pickedItem.label)).map some }

/-- Modelled from the spec: `Prompter.applyTransforms` lives in `prompter.ts`, which is not
among the sources here.  Spec §4.2: a transform "applies `f` to the resolved value
if-and-only-if the original result was a real value (signals bypass `f` unchanged)";
`undefined` is likewise not a real value.  Registered transforms are applied in order. -/
def applyTransforms (transforms : List (JsValue → JsValue)) (result : JsValue) : JsValue :=
  transforms.foldl (fun acc f => if isValidResponse acc then f acc else acc) result

/-- The `hashItem` helper of `setEstimatorHook`. -/
def hashItem (item : DataQuickPickItem) : String :=
  item.label ++ ":" ++ item.description.getD "" ++ ":" ++ item.detail.getD ""

/-- The entry a single `setEstimate` call adds to the `estimates` map: nothing for
`skipEstimate` items, otherwise the estimator applied to the transformed resolved data
(for function data this is the value its promise settles with), keyed by the item hash. -/
def setEstimate (transforms : List (JsValue → JsValue)) (estimator : JsValue → Nat)
    (item : DataQuickPickItem) : Option (String × Nat) :=
  if item.skipEstimate then none
  else some (hashItem item, estimator (applyTransforms transforms item.data.resolved))

/-- Lookup in the `estimates` map.  `Map.set` overwrites, so when several inserts share a
key the last one wins. -/
def mapGet : List (String × Nat) → String → Option Nat
  | [], _ => none
  | (k, v) :: rest, key =>
      match mapGet rest key with
      | some v' => some v'
      | none => if k == key then some v else none

/-- The map produced by `this.quickPick.items.map(setEstimate)` in `setEstimatorHook`, once
every per-item promise has settled. -/
def initialEstimates (transforms : List (JsValue → JsValue)) (estimator : JsValue → Nat)
    (items : List DataQuickPickItem) : List (String × Nat) :=
  items.filterMap (setEstimate transforms estimator)

/-- JS `+` between the captured `total` and a map lookup: `none` stands for
`undefined`/`NaN`, which propagates. -/
def jsAdd : Option Int → Option Nat → Option Int
  | some a, some b => some (a + (b : Int))
  | _, _ => none

/-- The `onDidChangeActive` handler installed by `setEstimatorHook`: an empty active list
returns; otherwise every active item not yet memoized gets its estimate computed and
stored, and `setSteps(current, total + (estimate of active[0] ?? 0))` is issued.  Returns
the extended map and the issued step display. -/
def onDidChangeActive (transforms : List (JsValue → JsValue)) (estimator : JsValue → Nat)
    (current total : Int) (estimates : List (String × Nat))
    (active : List DataQuickPickItem) : List (String × Nat) × Option (Int × Int) :=
  match active with
  | [] => (estimates, none)
  | a0 :: _ =>
      let missing := active.filter (fun item => (mapGet estimates (hashItem item)).isNone)
      let estimates1 := estimates ++ missing.filterMap (setEstimate transforms estimator)
      let estimate := (mapGet estimates1 (hashItem a0)).getD 0
      (estimates1, some (current, total + (estimate : Int)))

/-- Result of `setEstimatorHook` at the moment it returns: the memoized estimates and the
`setSteps` it issued for a non-empty item list after awaiting the first item's promise
(`initialSteps = none` means no `setSteps` happened; a `none` component models the `NaN`
arising from the `!` assertions when `step`/`totalSteps` are unset or when the first item
was `skipEstimate` and the map lookup yields `undefined`). -/
structure EstimatorHook where
  estimates : List (String × Nat)
  initialSteps : Option (Option Int × Option Int)

/-- `QuickPickPrompter.setEstimatorHook` for a present estimator: computes the per-item
estimates and, when there is at least one item, awaits the first one and issues
`setSteps(current, total + estimates.get(hashItem(items[0]))!)`. -/
def setEstimatorHook (transforms : List (JsValue → JsValue)) (estimator : JsValue → Nat)
    (st : PickerState) : EstimatorHook :=
  let estimates := initialEstimates transforms estimator st.items
  match st.items with
  | [] => { estimates := estimates, initialSteps := none }
  | item0 :: _ =>
      { estimates := estimates
        initialSteps := some (st.step, jsAdd st.totalSteps (mapGet estimates (hashItem item0))) }

/-- Observable UI actions of `QuickPickPrompter.promptUser` up to the point the picker is
shown. -/
inductive UiEvent where
  | stepsSet (step : Option Int) (total : Option Int)
  | shown

/-- Order of UI actions in `QuickPickPrompter.promptUser`: `await this.setEstimatorHook()`
runs to completion (issuing its `setSteps`, if any) strictly before `promptUser` calls
`picker.show()`. -/
def promptUserUiTrace (hasEstimator : Bool) (transforms : List (JsValue → JsValue))
    (estimator : JsValue → Nat) (st : PickerState) : List UiEvent :=
  (if hasEstimator then
    match (setEstimatorHook transforms estimator st).initialSteps with
    | some (c, t) => [UiEvent.stepsSet c t]
    | none => []
  else []) ++ [UiEvent.shown]

/-- `FilterBoxInputSettings` from `pickerPrompter.ts` (the unused `inverse` is omitted). -/
structure FilterBoxInputSettings where
  label : String
  transform : String → JsValue
  validator : Option (String → Option String) := none

/-- The `validator` closure of `addFilterBoxInput`: the caller-supplied validator, or the
always-accepting default. -/
def runValidator (settings : FilterBoxInputSettings) (input : String) : Option String :=
  match settings.validator with
  | some v => v input
  | none => none

/-- The synthetic `customUserInputItem` built by `update` for a non-empty filter value. -/
def customUserInputItem (settings : FilterBoxInputSettings) (value : String) :
    DataQuickPickItem :=
  { label := settings.label
    description := some value
    alwaysShow := true
    data := QuickPickData.val CUSTOM_USER_INPUT
    invalidSelection := (runValidator settings value).isSome
    detail := runValidator settings value }

/-- Truth of `item.data === CUSTOM_USER_INPUT`. -/
def isCustomUserInput : QuickPickData → Bool
  | QuickPickData.val v => jsStrictEq v CUSTOM_USER_INPUT
  | QuickPickData.thunk _ => false

/-- The `update` closure of `addFilterBoxInput`, over the base items it captured: a
non-empty filter value prepends the synthetic custom-input item, an empty one shows the
base items alone. -/
def filterBoxUpdate (settings : FilterBoxInputSettings)
    (baseItems : List DataQuickPickItem) (value : String) : List DataQuickPickItem :=
  if value ≠ "" then customUserInputItem settings value :: baseItems else baseItems

/-- `FilterBoxQuickPickPrompter.addFilterBoxInput`: captures the current items minus any
previous custom-input item, installs `update` as the `onDidChangeValue` handler, and runs
it once on the current filter value. -/
def addFilterBoxInput (settings : FilterBoxInputSettings) (st : PickerState) : PickerState :=
  let base := st.items.filter (fun item => !isCustomUserInput item.data)
  { st with items := filterBoxUpdate settings base st.value }

/-- The transform registered by the `FilterBoxQuickPickPrompter` constructor:
`selection === CUSTOM_USER_INPUT ? settings.transform(quickPick.value) ?? selection :
selection` (JS `??` falls back on `undefined` and `null`). -/
def filterBoxTransform (settings : FilterBoxInputSettings) (quickPickValue : String)
    (selection : JsValue) : JsValue :=
  if jsStrictEq selection CUSTOM_USER_INPUT then
    let r := settings.transform quickPickValue
    if jsStrictEq r JsValue.undef || jsStrictEq r JsValue.null then selection else r
  else selection

lemma findSome?_map_clickFired (l : List DataQuickPickItem) :
    (l.map AcceptEvent.clickFired).findSome? resolvedValue = none := by
  induction l with
  | nil => rfl
  | cons a t ih => simp [List.findSome?, resolvedValue, ih]

lemma findSome?_append {α β : Type} (l1 l2 : List α) (f : α → Option β) :
    (l1 ++ l2).findSome? f =
      match l1.findSome? f with
      | some b => some b
      | none => l2.findSome? f := by
  induction l1 with
  | nil => rfl
  | cons a t ih =>
      simp only [List.cons_append, List.findSome?]
      cases f a <;> simp [ih]

lemma acceptOutcome_eq (sel : List DataQuickPickItem) :
    acceptOutcome sel =
      if sel.isEmpty then none
      else if sel.any (fun i => i.invalidSelection) then none
      else some sel := by
  unfold acceptOutcome acceptItems
  by_cases h : sel.isEmpty
  · simp [h]
  · by_cases h2 : sel.any (fun i => i.invalidSelection) <;>
      simp [h, h2, findSome?_append, findSome?_map_clickFired, List.findSome?, resolvedValue]

/-- C2: for every accept event on a selection list, an empty selection is ignored (nothing
fires, nothing resolves), a selection containing an invalid item is ignored, and the trace
of `acceptItems` fires every selected item's `onClick` strictly before the invalid-selection
check (and before any resolution). -/
theorem c2_accept_contract (sel : List DataQuickPickItem) :
    (sel.isEmpty = true → acceptItems sel = [] ∧ acceptOutcome sel = none)
    ∧ (sel.any (fun i => i.invalidSelection) = true → acceptOutcome sel = none)
    ∧ (sel.isEmpty = false →
        acceptItems sel =
          ((sel.filter (fun i => i.onClick)).map AcceptEvent.clickFired)
            ++ AcceptEvent.invalidCheck (sel.any (fun i => i.invalidSelection))
            :: (if sel.any (fun i => i.invalidSelection) then []
                else [AcceptEvent.resolved sel])) := by
  refine ⟨fun h => ⟨?_, ?_⟩, fun h => ?_, fun h => ?_⟩
  · simp [acceptItems, h]
  · simp [acceptOutcome_eq, h]
  · rcases Bool.eq_false_or_eq_true sel.isEmpty with he | he <;>
      simp [acceptOutcome_eq, h, he]
  · simp [acceptItems, h]

/-- C2 witness: a concrete two-item selection with one invalid item: both `onClick`s fire,
then the check, and the prompt does not resolve. -/
theorem c2_accept_contract_witness :
    ([{ label := "a", data := QuickPickData.val (JsValue.str "a"), onClick := true },
      { label := "b", data := QuickPickData.val (JsValue.str "b"), invalidSelection := true,
        onClick := true }] : List DataQuickPickItem).any (fun i => i.invalidSelection) = true
    ∧ acceptOutcome
        [{ label := "a", data := QuickPickData.val (JsValue.str "a"), onClick := true },
         { label := "b", data := QuickPickData.val (JsValue.str "b"), invalidSelection := true,
           onClick := true }] = none :=
  ⟨rfl,
    (c2_accept_contract
      [{ label := "a", data := QuickPickData.val (JsValue.str "a"), onClick := true },
       { label := "b", data := QuickPickData.val (JsValue.str "b"), invalidSelection := true,
         onClick := true }]).2.1 rfl⟩

/-- C1: every terminating event of a selection-list prompt delivers a value — a commit with
a non-empty, all-valid selection resolves with the selected items, hiding resolves with the
EXIT signal, the back button resolves with the BACK signal, and clicking a toggle button
resolves with the RETRY signal — and once any event sequence settles the promise, the
outcome records that the picker surface was disposed. -/
theorem c1_prompt_resolves_never_rejects :
    (∀ sel : List DataQuickPickItem, sel.isEmpty = false →
        sel.any (fun i => i.invalidSelection) = false →
        handlePickerEvent (PickerEvent.didAccept sel) = some sel)
    ∧ handlePickerEvent PickerEvent.didHide = some (castDatumToItems [WIZARD_EXIT])
    ∧ handlePickerEvent PickerEvent.didTriggerBackButton = some (castDatumToItems [WIZARD_BACK])
    ∧ (∀ b : QuickInputToggleButton,
        handlePickerEvent (PickerEvent.didTriggerToggleButton b)
          = some (castDatumToItems [WIZARD_RETRY]))
    ∧ (∀ (events : List PickerEvent) (r : List DataQuickPickItem),
        events.findSome? handlePickerEvent = some r →
        promptUser events = some { result := r, disposed := true }) := by
  refine ⟨fun sel h1 h2 => ?_, rfl, rfl, fun b => rfl, fun events r h => ?_⟩
  · simp [handlePickerEvent, acceptOutcome_eq, h1, h2]
  · simp [promptUser, h]

/-- C1 witness: a concrete event sequence — a toggle click resolves the prompt with RETRY
and the surface is disposed. -/
theorem c1_prompt_resolves_never_rejects_witness :
    handlePickerEvent (PickerEvent.didTriggerToggleButton { state := false })
      = some (castDatumToItems [WIZARD_RETRY])
    ∧ promptUser [PickerEvent.didTriggerToggleButton { state := false }]
        = some { result := castDatumToItems [WIZARD_RETRY], disposed := true }
    ∧ handlePickerEvent (PickerEvent.didAccept
        [{ label := "a", data := QuickPickData.val (JsValue.str "a") }])
      = some [{ label := "a", data := QuickPickData.val (JsValue.str "a") }] :=
  ⟨c1_prompt_resolves_never_rejects.2.2.2.1 { state := false },
    c1_prompt_resolves_never_rejects.2.2.2.2
      [PickerEvent.didTriggerToggleButton { state := false }]
      (castDatumToItems [WIZARD_RETRY]) rfl,
    c1_prompt_resolves_never_rejects.1
      [{ label := "a", data := QuickPickData.val (JsValue.str "a") }] rfl rfl⟩

lemma selectItems_busy (st : PickerState) (ts : List (Option DataQuickPickItem)) :
    (selectItems st ts).busy = st.busy := by
  dsimp only [selectItems]; split <;> rfl

lemma selectItems_enabled (st : PickerState) (ts : List (Option DataQuickPickItem)) :
    (selectItems st ts).enabled = st.enabled := by
  dsimp only [selectItems]; split <;> rfl

lemma selectItems_items (st : PickerState) (ts : List (Option DataQuickPickItem)) :
    (selectItems st ts).items = st.items := by
  dsimp only [selectItems]; split <;> rfl

lemma selectItems_showing (st : PickerState) (ts : List (Option DataQuickPickItem)) :
    (selectItems st ts).isShowingPlaceholder = st.isShowingPlaceholder := by
  dsimp only [selectItems]; split <;> rfl

lemma appendItems_busy (opts : ExtendedQuickPickOptions) (st : PickerState)
    (xs : List DataQuickPickItem) : (appendItems opts st xs).busy = st.busy := by
  dsimp only [appendItems]; rw [selectItems_busy]; split <;> rfl

lemma appendItems_enabled (opts : ExtendedQuickPickOptions) (st : PickerState)
    (xs : List DataQuickPickItem) : (appendItems opts st xs).enabled = st.enabled := by
  dsimp only [appendItems]; rw [selectItems_enabled]; split <;> rfl

lemma except_map_ok {ε α β : Type} {e : Except ε α} {f : α → β} {b : β}
    (h : Except.map f e = Except.ok b) : ∃ a, e = Except.ok a ∧ b = f a := by
  cases e with
  | error e => simp [Except.map] at h
  | ok a => exact ⟨a, rfl, by simpa [Except.map] using h.symm⟩

/-- C9: throughout a `loadItems` call the picker is busy and its `enabled` flag is the
boolean coercion of the `disableInput` argument (absent or `false` gives `enabled = false`,
`true` keeps input enabled), and any load that completes without throwing ends with
`busy = false` and `enabled = true`. -/
theorem c9_busy_enabled_flags (opts : ExtendedQuickPickOptions) (st : PickerState)
    (items : ItemLoadTypes) (d : Option Bool) :
    (loadItems opts st items d).loadingState.busy = true
    ∧ (loadItems opts st items d).loadingState.enabled = d.getD false
    ∧ ∀ final, (loadItems opts st items d).result = Except.ok final →
        final.busy = false ∧ final.enabled = true := by
  refine ⟨rfl, rfl, fun final h => ?_⟩
  obtain ⟨s, _, hb⟩ := except_map_ok h
  subst hb
  exact ⟨appendItems_busy .., appendItems_enabled ..⟩

/-- C9 witness: a concrete load with `disableInput = true` keeps `enabled = true` while
busy, and a completed load ends not busy with input enabled. -/
theorem c9_busy_enabled_flags_witness :
    (loadItems {} {} (ItemLoadTypes.array
        [{ label := "a", data := QuickPickData.val (JsValue.str "a") }]) (some true)
      ).loadingState.enabled = true
    ∧ ∃ final,
        (loadItems {} {} (ItemLoadTypes.array
            [{ label := "a", data := QuickPickData.val (JsValue.str "a") }]) (some true)
          ).result = Except.ok final
        ∧ final.busy = false ∧ final.enabled = true :=
  ⟨(c9_busy_enabled_flags {} {} (ItemLoadTypes.array
      [{ label := "a", data := QuickPickData.val (JsValue.str "a") }]) (some true)).2.1,
    ⟨_, rfl, (c9_busy_enabled_flags {} {} (ItemLoadTypes.array
      [{ label := "a", data := QuickPickData.val (JsValue.str "a") }]) (some true)).2.2 _ rfl⟩⟩

/-- C10: when no label matches, `selectItems` (and the fallback at the end of
`setLastResponse`) unconditionally highlights the first element of the item list; with an
empty item list this stores a one-element list holding an `undefined` entry, not an empty
list. -/
theorem c10_undefined_first_item_fallback :
    (∀ (st : PickerState) (ts : List (Option DataQuickPickItem)),
        (st.items.filter (fun item =>
            (ts.filterMap (Option.map (fun i => i.label))).contains item.label)).isEmpty
          = true →
        (selectItems st ts).activeItems = [st.items.get? 0])
    ∧ (∀ (st : PickerState) (ts : List (Option DataQuickPickItem)), st.items = [] →
        (selectItems st ts).activeItems = [Option.none])
    ∧ (∀ (opts : ExtendedQuickPickOptions) (st : PickerState) (p : DataQuickPickItem),
        st.items = [] →
        (setLastResponse opts st (some (LastResponse.item p))).activeItems
          = [Option.none]) := by
  refine ⟨fun st ts h => ?_, fun st ts h => ?_, fun opts st p h => ?_⟩
  · dsimp only [selectItems]
    simp only [h]
    rfl
  · simp [selectItems, h]
  · simp only [setLastResponse, finishLastResponse, h]
    split <;> simp

/-- C10 witness: with an empty item list, selecting anything highlights `[undefined]`. -/
theorem c10_undefined_first_item_fallback_witness :
    (({} : PickerState).items.filter (fun item =>
        (([some { label := "x", data := QuickPickData.val (JsValue.str "x") }]
            : List (Option DataQuickPickItem)).filterMap
          (Option.map (fun i => i.label))).contains item.label)).isEmpty = true
    ∧ (selectItems {}
        [some { label := "x", data := QuickPickData.val (JsValue.str "x") }]).activeItems
      = [Option.none] :=
  ⟨rfl, c10_undefined_first_item_fallback.2.1 {}
    [some { label := "x", data := QuickPickData.val (JsValue.str "x") }] rfl⟩

/-- C3: the claim is right about the intent (the `errorItem` option is documented as "Item
to show if there was an error loading items") but `loadItems` contains no catch at all: a
rejecting item promise makes the promise returned by `loadItems` itself reject, the picker
stays busy with input disabled, and the configured error item is never shown. -/
theorem c3_load_failure_rejects :
    (loadItems
        { errorItem := some { label := "error", data := QuickPickData.val (JsValue.str "e") } }
        {} (ItemLoadTypes.promise (Except.error "network failure")) none).result
      = Except.error ("network failure",
          { items := [], activeItems := [], busy := true, enabled := false }) := by
  rfl

/-- C4 counterexample: with no placeholder item configured, a load settling with zero total
items leaves the picker showing an empty, un-selectable list (and highlights `[undefined]`),
contradicting "the list shows exactly the placeholder item — never an empty, un-selectable
list". -/
theorem c4_counterexample_no_placeholder_empty_list :
    (loadItems {} {} (ItemLoadTypes.promise (Except.ok [])) none).result
      = Except.ok
          { items := [], activeItems := [Option.none], busy := false, enabled := true,
            isShowingPlaceholder := true } := by
  rfl

lemma sortItems_nil (c : Option (DataQuickPickItem → DataQuickPickItem → Int)) :
    sortItems c [] = [] := by
  cases c <;> simp [sortItems]

lemma appendItems_nil_of_busy (opts : ExtendedQuickPickOptions) (st : PickerState)
    (hb : st.busy = true) (hi : st.items = []) :
    (appendItems opts st []).items = []
    ∧ (appendItems opts st []).busy = true
    ∧ (appendItems opts st []).isShowingPlaceholder = st.isShowingPlaceholder := by
  refine ⟨?_, ?_, ?_⟩
  · dsimp only [appendItems]
    rw [selectItems_items]
    simp [hi, hb, sortItems_nil]
  · rw [appendItems_busy, hb]
  · dsimp only [appendItems]
    rw [selectItems_showing]
    simp [hi, hb, sortItems_nil]

lemma appendItems_placeholder_shown (opts : ExtendedQuickPickOptions)
    (p : DataQuickPickItem) (st : PickerState) (hp : opts.placeholderItem = some p)
    (hb : st.busy = false) (hi : st.items = []) :
    (appendItems opts st []).items = [p]
    ∧ (appendItems opts st []).isShowingPlaceholder = true := by
  constructor
  · dsimp only [appendItems]
    rw [selectItems_items]
    simp [hi, hb, sortItems_nil, hp]
  · dsimp only [appendItems]
    rw [selectItems_showing]
    simp [hi, hb, sortItems_nil]

lemma loadPages_all_empty (opts : ExtendedQuickPickOptions)
    (pages : List (Except String (List DataQuickPickItem))) :
    ∀ st : PickerState, st.busy = true → st.items = [] →
    pages.all (fun p =>
        match p with
        | Except.ok xs => xs.isEmpty
        | Except.error _ => false) = true →
    ∃ s, loadPages opts st pages = Except.ok s ∧ s.busy = true ∧ s.items = [] := by
  induction pages with
  | nil => exact fun st hb hi _ => ⟨st, rfl, hb, hi⟩
  | cons page rest ih =>
      intro st hb hi hall
      cases page with
      | error e => simp at hall
      | ok xs =>
          simp only [List.all_cons, Bool.and_eq_true] at hall
          have hx : xs = [] := by simpa [List.isEmpty_iff] using hall.1
          subst hx
          obtain ⟨hi', hb', _⟩ := appendItems_nil_of_busy opts st hb hi
          exact ih (appendItems opts st []) hb' hi' hall.2

lemma loadItems_eq (opts : ExtendedQuickPickOptions) (st : PickerState)
    (items : ItemLoadTypes) (d : Option Bool) (hsp : st.isShowingPlaceholder = false) :
    loadItems opts st items d =
      { loadingState := { st with busy := true, enabled := d.getD false }
        result :=
          (match items with
            | ItemLoadTypes.array xs =>
                Except.ok (appendItems opts
                  { st with busy := true, enabled := d.getD false } xs)
            | ItemLoadTypes.promise (Except.ok xs) =>
                Except.ok (appendItems opts
                  { st with busy := true, enabled := d.getD false } xs)
            | ItemLoadTypes.promise (Except.error e) =>
                Except.error (e, { st with busy := true, enabled := d.getD false })
            | ItemLoadTypes.asyncIterable pages =>
                loadPages opts { st with busy := true, enabled := d.getD false } pages).map
            (fun s : PickerState =>
              appendItems opts { s with busy := false, enabled := true } []) } := by
  simp [loadItems, hsp]

/-- C4, amended: a selection-list load that settles with zero total items while the source
is no longer loading shows exactly the placeholder item provided one is configured (with no
configured placeholder item the list is left empty, as the counterexample shows). -/
theorem c4_placeholder_when_configured (opts : ExtendedQuickPickOptions)
    (p : DataQuickPickItem) (st : PickerState) (items : ItemLoadTypes) (d : Option Bool)
    (hp : opts.placeholderItem = some p) (hi : st.items = [])
    (hsp : st.isShowingPlaceholder = false) (hsrc : emptySource items = true) :
    ∃ final, (loadItems opts st items d).result = Except.ok final
      ∧ final.items = [p] ∧ final.isShowingPlaceholder = true := by
  rw [loadItems_eq opts st items d hsp]
  cases items with
  | array xs =>
      have hx : xs = [] := by simpa [emptySource, List.isEmpty_iff] using hsrc
      subst hx
      obtain ⟨hi', _, _⟩ := appendItems_nil_of_busy opts
        { st with busy := true, enabled := d.getD false } rfl hi
      exact ⟨_, rfl, appendItems_placeholder_shown opts p _ hp rfl hi'⟩
  | promise result =>
      cases result with
      | error e => simp [emptySource] at hsrc
      | ok xs =>
          have hx : xs = [] := by simpa [emptySource, List.isEmpty_iff] using hsrc
          subst hx
          obtain ⟨hi', _, _⟩ := appendItems_nil_of_busy opts
            { st with busy := true, enabled := d.getD false } rfl hi
          exact ⟨_, rfl, appendItems_placeholder_shown opts p _ hp rfl hi'⟩
  | asyncIterable pages =>
      have hall : pages.all (fun p =>
          match p with
          | Except.ok xs => xs.isEmpty
          | Except.error _ => false) = true := by simpa [emptySource] using hsrc
      obtain ⟨s, hs, _, hsi⟩ :=
        loadPages_all_empty opts pages { st with busy := true, enabled := d.getD false }
          rfl hi hall
      refine ⟨_, ?_, appendItems_placeholder_shown opts p
        { s with busy := false, enabled := true } hp rfl hsi⟩
      show Except.map _ (loadPages opts
        { st with busy := true, enabled := d.getD false } pages) = _
      rw [hs]
      rfl

/-- C4 witness: a two-page async load that settles empty shows exactly the configured
placeholder item. -/
theorem c4_placeholder_when_configured_witness :
    ∃ final,
      (loadItems
          { placeholderItem := some
              { label := "placeholder", data := QuickPickData.val JsValue.undef } }
          {} (ItemLoadTypes.asyncIterable [Except.ok [], Except.ok []]) none).result
        = Except.ok final
      ∧ final.items = [{ label := "placeholder", data := QuickPickData.val JsValue.undef }]
      ∧ final.isShowingPlaceholder = true :=
  c4_placeholder_when_configured
    { placeholderItem := some { label := "placeholder", data := QuickPickData.val JsValue.undef } }
    { label := "placeholder", data := QuickPickData.val JsValue.undef }
    {} (ItemLoadTypes.asyncIterable [Except.ok [], Except.ok []]) none rfl rfl rfl rfl

lemma mem_sortItems {a : DataQuickPickItem} {l : List DataQuickPickItem}
    (c : Option (DataQuickPickItem → DataQuickPickItem → Int)) (h : a ∈ l) :
    a ∈ sortItems c l := by
  cases c with
  | none => exact h
  | some cmp => exact (List.mergeSort_perm l _).symm.subset h

lemma selectItems_fallback (st : PickerState) (ts : List (Option DataQuickPickItem))
    (h : (st.items.filter (fun item =>
        (ts.filterMap (Option.map (fun i => i.label))).contains item.label)).isEmpty
      = true) :
    (selectItems st ts).activeItems = [st.items.get? 0] := by
  dsimp only [selectItems]
  simp only [h]
  rfl

lemma selectItems_found {st : PickerState} {ts : List (Option DataQuickPickItem)}
    {a : DataQuickPickItem}
    (h : a ∈ st.items.filter (fun item =>
        (ts.filterMap (Option.map (fun i => i.label))).contains item.label)) :
    some a ∈ (selectItems st ts).activeItems := by
  dsimp only [selectItems]
  have hne : (st.items.filter (fun item =>
      (ts.filterMap (Option.map (fun i => i.label))).contains item.label)).isEmpty
        = false := by
    cases hl : st.items.filter (fun item =>
        (ts.filterMap (Option.map (fun i => i.label))).contains item.label) with
    | nil => rw [hl] at h; cases h
    | cons x l => rfl
  simp only [hne, Bool.false_eq_true, if_false]
  exact List.mem_map.mpr ⟨a, h, rfl⟩

/-- C5: appending a page merges it with the existing items sorted by the optional
comparator, the highlighted selection is preserved by label-identity lookup (in particular
an item highlighted mid-load stays highlighted after a later page arrives), and when no
previously highlighted label survives the merge the first item of the merged list becomes
highlighted. -/
theorem c5_page_merge_preserves_selection (opts : ExtendedQuickPickOptions)
    (st : PickerState) (pageItems : List DataQuickPickItem) :
    ((sortItems opts.compare (st.items ++ pageItems)).isEmpty = false →
        (appendItems opts st pageItems).items = sortItems opts.compare (st.items ++ pageItems))
    ∧ (∀ a, some a ∈ st.activeItems → a ∈ st.items →
        some a ∈ (appendItems opts st pageItems).activeItems)
    ∧ (((appendItems opts st pageItems).items.filter (fun item =>
          (st.activeItems.filterMap (Option.map (fun i => i.label))).contains
            item.label)).isEmpty = true →
        (appendItems opts st pageItems).activeItems
          = [(appendItems opts st pageItems).items.get? 0]) := by
  refine ⟨fun h => ?_, fun a hact hmem => ?_, fun h => ?_⟩
  · dsimp only [appendItems]
    rw [selectItems_items]
    simp [h]
  · have hmerged : a ∈ sortItems opts.compare (st.items ++ pageItems) :=
      mem_sortItems opts.compare (List.mem_append_left pageItems hmem)
    have hne : (sortItems opts.compare (st.items ++ pageItems)).isEmpty = false := by
      cases hl : sortItems opts.compare (st.items ++ pageItems) with
      | nil => rw [hl] at hmerged; cases hmerged
      | cons x l => rfl
    have hlabel : (st.activeItems.filterMap
        (Option.map (fun i => i.label))).contains a.label = true := by
      have : a.label ∈ st.activeItems.filterMap (Option.map (fun i => i.label)) :=
        List.mem_filterMap.mpr ⟨some a, hact, rfl⟩
      simp [this]
    dsimp only [appendItems]
    simp only [hne, Bool.false_and, Bool.false_eq_true, if_false]
    exact selectItems_found (List.mem_filter.mpr ⟨hmerged, hlabel⟩)
  · dsimp only [appendItems] at h ⊢
    rw [selectItems_items] at h
    rw [selectItems_items]
    exact selectItems_fallback _ _ h

/-- C5 witness: the spec scenario — pages `["a"]` then `["b"]`; with "a" highlighted after
the first page, appending the second page keeps "a" highlighted. -/
theorem c5_page_merge_preserves_selection_witness :
    some { label := "a", data := QuickPickData.val (JsValue.str "a") }
      ∈ (appendItems {}
          { items := [{ label := "a", data := QuickPickData.val (JsValue.str "a") }]
            activeItems := [some { label := "a", data := QuickPickData.val (JsValue.str "a") }]
            busy := true }
          [{ label := "b", data := QuickPickData.val (JsValue.str "b") }]).activeItems :=
  (c5_page_merge_preserves_selection {}
      { items := [{ label := "a", data := QuickPickData.val (JsValue.str "a") }]
        activeItems := [some { label := "a", data := QuickPickData.val (JsValue.str "a") }]
        busy := true }
      [{ label := "b", data := QuickPickData.val (JsValue.str "b") }]).2.1
    { label := "a", data := QuickPickData.val (JsValue.str "a") }
    (by simp) (by simp)

lemma any_eq_false_of_all_not {l : List DataQuickPickItem} {p : DataQuickPickItem → Bool}
    (h : l.all (fun i => !p i) = true) : l.any p = false := by
  rcases Bool.eq_false_or_eq_true (l.any p) with hf | ht
  · obtain ⟨x, hx, hpx⟩ := List.any_eq_true.mp hf
    have := List.all_eq_true.mp h x hx
    simp [hpx] at this
  · exact ht

lemma filter_all_not_custom (l : List DataQuickPickItem) :
    (l.filter (fun item => !isCustomUserInput item.data)).all
      (fun i => !isCustomUserInput i.data) = true := by
  refine List.all_eq_true.mpr fun x hx => ?_
  exact (List.mem_filter.mp hx).2

/-- C7: in filter-box input mode the synthetic custom-input item is present iff the filter
text is non-empty; a validator message marks it invalid with the message as its detail and
an accept on it is ignored; with accepted text it is committable and committing it yields
the caller-supplied transform of the text (when that transform result is not nullish);
committing any non-custom value passes through the registered transform unchanged. -/
theorem c7_filter_box_input (settings : FilterBoxInputSettings) :
    (∀ (baseItems : List DataQuickPickItem) (v : String),
        baseItems.all (fun i => !isCustomUserInput i.data) = true →
        (filterBoxUpdate settings baseItems v).any (fun i => isCustomUserInput i.data)
          = !(v == ""))
    ∧ (∀ st : PickerState,
        (addFilterBoxInput settings st).items.any (fun i => isCustomUserInput i.data)
          = !(st.value == ""))
    ∧ (∀ (v : String) (m : String), runValidator settings v = some m →
        (customUserInputItem settings v).invalidSelection = true
        ∧ (customUserInputItem settings v).detail = some m
        ∧ acceptOutcome [customUserInputItem settings v] = none)
    ∧ (∀ v : String, runValidator settings v = none →
        (customUserInputItem settings v).invalidSelection = false
        ∧ acceptOutcome [customUserInputItem settings v]
            = some [customUserInputItem settings v])
    ∧ (∀ v : String,
        jsStrictEq (settings.transform v) JsValue.undef = false →
        jsStrictEq (settings.transform v) JsValue.null = false →
        applyTransforms [filterBoxTransform settings v] CUSTOM_USER_INPUT
          = settings.transform v)
    ∧ (∀ (v : String) (d : JsValue), jsStrictEq d CUSTOM_USER_INPUT = false →
        applyTransforms [filterBoxTransform settings v] d = d) := by
  have hpresence : ∀ (baseItems : List DataQuickPickItem) (v : String),
      baseItems.all (fun i => !isCustomUserInput i.data) = true →
      (filterBoxUpdate settings baseItems v).any (fun i => isCustomUserInput i.data)
        = !(v == "") := by
    intro baseItems v hall
    by_cases hv : v = ""
    · subst hv
      simp [filterBoxUpdate, any_eq_false_of_all_not hall]
    · have hv' : (v == "") = false := by simpa using hv
      simp [filterBoxUpdate, hv, hv', customUserInputItem, isCustomUserInput,
        CUSTOM_USER_INPUT, jsStrictEq]
  refine ⟨hpresence, fun st => ?_, fun v m h => ?_, fun v h => ?_, fun v h1 h2 => ?_,
    fun v d h => ?_⟩
  · exact hpresence _ st.value (filter_all_not_custom st.items)
  · refine ⟨by simp [customUserInputItem, h], by simp [customUserInputItem, h], ?_⟩
    simp [acceptOutcome_eq, customUserInputItem, h]
  · refine ⟨by simp [customUserInputItem, h], ?_⟩
    simp [acceptOutcome_eq, customUserInputItem, h]
  · rw [show applyTransforms [filterBoxTransform settings v] CUSTOM_USER_INPUT
        = (if (jsStrictEq (settings.transform v) JsValue.undef
              || jsStrictEq (settings.transform v) JsValue.null) = true
           then CUSTOM_USER_INPUT else settings.transform v) from rfl]
    rw [h1, h2]
    rfl
  · cases hv : isValidResponse d <;>
      simp [applyTransforms, filterBoxTransform, hv, h]

/-- C7 witness: a concrete filter box whose validator rejects "bad" and accepts "ok": the
synthetic item for "bad" is invalid with the message as detail and cannot be committed, the
item for "ok" commits, and the registered transform turns the committed symbol into the
typed text. -/
theorem c7_filter_box_input_witness :
    (runValidator
        { label := "custom", transform := fun s => JsValue.str s,
          validator := some (fun s => if s == "bad" then some "bad input" else none) }
        "bad" = some "bad input")
    ∧ (customUserInputItem
        { label := "custom", transform := fun s => JsValue.str s,
          validator := some (fun s => if s == "bad" then some "bad input" else none) }
        "bad").invalidSelection = true
    ∧ acceptOutcome [customUserInputItem
        { label := "custom", transform := fun s => JsValue.str s,
          validator := some (fun s => if s == "bad" then some "bad input" else none) }
        "bad"] = none
    ∧ applyTransforms [filterBoxTransform
        { label := "custom", transform := fun s => JsValue.str s,
          validator := some (fun s => if s == "bad" then some "bad input" else none) }
        "ok"] CUSTOM_USER_INPUT = JsValue.str "ok" := by
  have h := c7_filter_box_input
    { label := "custom", transform := fun s => JsValue.str s,
      validator := some (fun s => if s == "bad" then some "bad input" else none) }
  refine ⟨rfl, (h.2.2.1 "bad" "bad input" rfl).1, (h.2.2.1 "bad" "bad input" rfl).2.2, ?_⟩
  exact h.2.2.2.2.1 "ok" rfl rfl

lemma mark_label (labels : List String) (i : DataQuickPickItem) :
    (markSelectedPreviously labels i).label = i.label := by
  unfold markSelectedPreviously; split <;> rfl

lemma mark_nil (i : DataQuickPickItem) : markSelectedPreviously [] i = i := by
  simp [markSelectedPreviously]

lemma typeofFunction_imp_not_object (d : QuickPickData)
    (h : d.typeofFunction = true) : d.typeofObject = false := by
  cases d with
  | thunk r => rfl
  | val v => cases v <;> simp_all [QuickPickData.typeofFunction, QuickPickData.typeofObject]

lemma finish_keeps_labels (opts : ExtendedQuickPickOptions) (st : PickerState)
    (hne : st.activeItems ≠ []) :
    (finishLastResponse opts st).activeItems ≠ []
    ∧ ∀ j, some j ∈ (finishLastResponse opts st).activeItems →
        ∃ j0, some j0 ∈ st.activeItems ∧ j.label = j0.label := by
  unfold finishLastResponse
  split
  · have hmapne : st.activeItems.map
        (Option.map (markSelectedPreviously
          (st.activeItems.filterMap (Option.map (fun item => item.label))))) ≠ [] := by
      simpa using hne
    have hie : (st.activeItems.map
        (Option.map (markSelectedPreviously
          (st.activeItems.filterMap (Option.map (fun item => item.label)))))).isEmpty
          = false := by
      cases hl : st.activeItems.map (Option.map (markSelectedPreviously
          (st.activeItems.filterMap (Option.map (fun item => item.label))))) with
      | nil => exact absurd hl hmapne
      | cons x l => rfl
    simp only [hie, Bool.false_eq_true, if_false]
    refine ⟨hmapne, fun j hj => ?_⟩
    obtain ⟨o, ho, hoj⟩ := List.mem_map.mp hj
    cases o with
    | none => simp at hoj
    | some j0 =>
        refine ⟨j0, ho, ?_⟩
        have hjj : j = markSelectedPreviously
            (st.activeItems.filterMap (Option.map (fun item => item.label))) j0 := by
          simpa [Option.map] using hoj.symm
        rw [hjj, mark_label]
  · have hie : st.activeItems.isEmpty = false := by
      cases hl : st.activeItems with
      | nil => exact absurd hl hne
      | cons x l => rfl
    simp only [hie, Bool.false_eq_true, if_false]
    exact ⟨hne, fun j hj => ⟨j, hj, rfl⟩⟩

lemma finishLastResponse_empty (opts : ExtendedQuickPickOptions) (st : PickerState)
    (h : st.activeItems = []) :
    (finishLastResponse opts st).activeItems = [st.items.get? 0] := by
  unfold finishLastResponse
  rw [h]
  split
  · simp only [List.map_nil, List.filterMap_nil, List.isEmpty_nil, if_true]
    have hmap : List.map (markSelectedPreviously []) st.items = st.items :=
      (List.map_congr_left fun a _ => mark_nil a).trans (List.map_id st.items)
    rw [hmap]
  · dsimp only
    rw [h]
    rfl

/-- C8: `setLastResponse` recovers a raw previous answer by data equality — JSON-string
comparison when the stored data is an object, strict equality for primitives, never
matching items whose data is a function — recovers a previously picked item by label, and
highlights the first item of the list when no match is found. -/
theorem c8_last_response_recovery :
    (∀ (data : JsValue) (items : List DataQuickPickItem) (found : DataQuickPickItem),
        recoverItemFromData data items = some found → found.data.typeofFunction = false)
    ∧ (∀ (data : JsValue) (items : List DataQuickPickItem) (item : DataQuickPickItem),
        item ∈ items → item.data.typeofObject = true →
        jsonStringify item.data.asJsValue = jsonStringify data →
        ∃ found, recoverItemFromData data items = some found)
    ∧ (∀ (data : JsValue) (items : List DataQuickPickItem) (item : DataQuickPickItem),
        item ∈ items → item.data.typeofObject = false → item.data.typeofFunction = false →
        jsStrictEq data item.data.asJsValue = true →
        ∃ found, recoverItemFromData data items = some found)
    ∧ (∀ (opts : ExtendedQuickPickOptions) (st : PickerState) (data : JsValue)
        (r : DataQuickPickItem), recoverItemFromData data st.items = some r →
        (setLastResponse opts st (some (LastResponse.raw data))).activeItems ≠ []
        ∧ ∀ j, some j ∈ (setLastResponse opts st (some (LastResponse.raw data))).activeItems →
            j.label = r.label)
    ∧ (∀ (opts : ExtendedQuickPickOptions) (st : PickerState) (p : DataQuickPickItem),
        st.items.filter (fun i => i.label == p.label) ≠ [] →
        (setLastResponse opts st (some (LastResponse.item p))).activeItems ≠ []
        ∧ ∀ j, some j ∈ (setLastResponse opts st (some (LastResponse.item p))).activeItems →
            j.label = p.label)
    ∧ (∀ (opts : ExtendedQuickPickOptions) (st : PickerState) (data : JsValue),
        recoverItemFromData data st.items = none →
        (setLastResponse opts st (some (LastResponse.raw data))).activeItems
          = [st.items.get? 0])
    ∧ (∀ (opts : ExtendedQuickPickOptions) (st : PickerState) (p : DataQuickPickItem),
        st.items.filter (fun i => i.label == p.label) = [] →
        (setLastResponse opts st (some (LastResponse.item p))).activeItems
          = [st.items.get? 0]) := by
  refine ⟨fun data items found hfind => ?_, fun data items item hmem hobj hjson => ?_,
    fun data items item hmem hobj hfun heq => ?_, fun opts st data r hfind => ?_,
    fun opts st p hne => ?_, fun opts st data hnone => ?_, fun opts st p hfe => ?_⟩
  · have hp := List.find?_some hfind
    by_contra hff
    have hf : found.data.typeofFunction = true := by
      cases hx : found.data.typeofFunction with
      | false => exact absurd hx hff
      | true => rfl
    have ho := typeofFunction_imp_not_object found.data hf
    rw [ho, hf] at hp
    simp at hp
  · have : (recoverItemFromData data items).isSome = true := by
      dsimp only [recoverItemFromData]
      refine List.find?_isSome.mpr ⟨item, hmem, ?_⟩
      simp [hobj, hjson]
    obtain ⟨found, hf⟩ := Option.isSome_iff_exists.mp this
    exact ⟨found, hf⟩
  · have : (recoverItemFromData data items).isSome = true := by
      dsimp only [recoverItemFromData]
      refine List.find?_isSome.mpr ⟨item, hmem, ?_⟩
      simp [hobj, hfun, heq]
    obtain ⟨found, hf⟩ := Option.isSome_iff_exists.mp this
    exact ⟨found, hf⟩
  · have hr : r ∈ st.items := List.mem_of_find?_eq_some hfind
    have hrp : ((recoverItemFromData data st.items).map (fun x => x.label)
        == some r.label) = true := by
      rw [hfind]
      simp [Option.map]
    have hrmem : r ∈ st.items.filter (fun item =>
        (recoverItemFromData data st.items).map (fun x => x.label) == some item.label) :=
      List.mem_filter.mpr ⟨hr, hrp⟩
    have hfne : (st.items.filter (fun item =>
        (recoverItemFromData data st.items).map (fun x => x.label)
          == some item.label)).map some ≠ [] := by
      intro hcontra
      rw [List.map_eq_nil_iff] at hcontra
      rw [hcontra] at hrmem
      cases hrmem
    dsimp only [setLastResponse]
    obtain ⟨h1, h2⟩ := finish_keeps_labels opts
      { st with activeItems := (st.items.filter (fun item =>
          (recoverItemFromData data st.items).map (fun x => x.label)
            == some item.label)).map some } hfne
    refine ⟨h1, fun j hj => ?_⟩
    obtain ⟨j0, hj0, hlab⟩ := h2 j hj
    obtain ⟨j1, hj1, hj1j0⟩ := List.mem_map.mp hj0
    have hj1eq : j1 = j0 := by injection hj1j0
    subst hj1eq
    have := (List.mem_filter.mp hj1).2
    rw [hfind] at this
    simp only [Option.map] at this
    have : r.label = j1.label := by simpa using this
    rw [hlab, ← this]
  · have hfne : (st.items.filter (fun i => i.label == p.label)).map some ≠ [] := by
      intro hcontra
      rw [List.map_eq_nil_iff] at hcontra
      exact hne hcontra
    dsimp only [setLastResponse]
    obtain ⟨h1, h2⟩ := finish_keeps_labels opts
      { st with activeItems := (st.items.filter (fun i => i.label == p.label)).map some }
      hfne
    refine ⟨h1, fun j hj => ?_⟩
    obtain ⟨j0, hj0, hlab⟩ := h2 j hj
    obtain ⟨j1, hj1, hj1j0⟩ := List.mem_map.mp hj0
    have hj1eq : j1 = j0 := by injection hj1j0
    subst hj1eq
    have := (List.mem_filter.mp hj1).2
    have hl : j1.label = p.label := by simpa using this
    rw [hlab, hl]
  · have hfe : st.items.filter (fun item =>
        (recoverItemFromData data st.items).map (fun x => x.label)
          == some item.label) = [] := by
      refine List.filter_eq_nil_iff.mpr fun a _ => ?_
      rw [hnone]
      simp
    dsimp only [setLastResponse]
    rw [hfe]
    exact finishLastResponse_empty opts _ rfl
  · dsimp only [setLastResponse]
    rw [hfe]
    exact finishLastResponse_empty opts _ rfl

/-- C8 witness: a raw object answer (identity 1) is recovered against an item list holding a
function-data item and an item whose data is a distinct object (identity 2) with the same
JSON — the JSON comparison finds the latter, setting it highlights a non-empty selection,
and a raw answer matching nothing highlights the first item. -/
theorem c8_last_response_recovery_witness :
    (∃ found, recoverItemFromData (JsValue.obj [("k", JsValue.str "v")] 1)
        [{ label := "f", data := QuickPickData.thunk (JsValue.str "x") },
         { label := "o", data := QuickPickData.val (JsValue.obj [("k", JsValue.str "v")] 2) }]
      = some found)
    ∧ (setLastResponse {}
        { items :=
            [{ label := "f", data := QuickPickData.thunk (JsValue.str "x") },
             { label := "o",
               data := QuickPickData.val (JsValue.obj [("k", JsValue.str "v")] 2) }] }
        (some (LastResponse.raw (JsValue.obj [("k", JsValue.str "v")] 1)))).activeItems ≠ []
    ∧ (setLastResponse {}
        { items := [{ label := "a", data := QuickPickData.val (JsValue.str "a") }] }
        (some (LastResponse.raw (JsValue.str "zzz")))).activeItems
      = [({ items := [{ label := "a", data := QuickPickData.val (JsValue.str "a") }] }
          : PickerState).items.get? 0] :=
  ⟨c8_last_response_recovery.2.1 (JsValue.obj [("k", JsValue.str "v")] 1)
      [{ label := "f", data := QuickPickData.thunk (JsValue.str "x") },
       { label := "o", data := QuickPickData.val (JsValue.obj [("k", JsValue.str "v")] 2) }]
      { label := "o", data := QuickPickData.val (JsValue.obj [("k", JsValue.str "v")] 2) }
      (List.mem_cons_of_mem _ (List.mem_cons_self _ _)) rfl rfl,
    (c8_last_response_recovery.2.2.2.1 {}
      { items :=
          [{ label := "f", data := QuickPickData.thunk (JsValue.str "x") },
           { label := "o",
             data := QuickPickData.val (JsValue.obj [("k", JsValue.str "v")] 2) }] }
      (JsValue.obj [("k", JsValue.str "v")] 1)
      { label := "o", data := QuickPickData.val (JsValue.obj [("k", JsValue.str "v")] 2) }
      (by rfl)).1,
    c8_last_response_recovery.2.2.2.2.2.1 {}
      { items := [{ label := "a", data := QuickPickData.val (JsValue.str "a") }] }
      (JsValue.str "zzz") rfl⟩

lemma setEstimate_eq_some {ts : List (JsValue → JsValue)} {est : JsValue → Nat}
    {j : DataQuickPickItem} {e : String × Nat} (hs : setEstimate ts est j = some e) :
    e = (hashItem j, est (applyTransforms ts j.data.resolved)) := by
  unfold setEstimate at hs
  split at hs
  · cases hs
  · injection hs with h1
    exact h1.symm

lemma mapGet_filterMap_setEstimate_some (ts : List (JsValue → JsValue))
    (est : JsValue → Nat) :
    ∀ (l : List DataQuickPickItem) (k : String) (v : Nat),
    mapGet (l.filterMap (setEstimate ts est)) k = some v →
    ∃ m, m ∈ l ∧ hashItem m = k := by
  intro l
  induction l with
  | nil => intro k v h; simp [mapGet] at h
  | cons j rest ih =>
      intro k v h
      cases hs : setEstimate ts est j with
      | none =>
          rw [List.filterMap_cons_none hs] at h
          obtain ⟨m, hm, hk⟩ := ih k v h
          exact ⟨m, List.mem_cons_of_mem _ hm, hk⟩
      | some e =>
          have he := setEstimate_eq_some hs
          subst he
          rw [List.filterMap_cons_some hs] at h
          rw [mapGet] at h
          cases hm : mapGet (rest.filterMap (setEstimate ts est)) k with
          | some v' =>
              obtain ⟨m, hm1, hk⟩ := ih k v' hm
              exact ⟨m, List.mem_cons_of_mem _ hm1, hk⟩
          | none =>
              rw [hm] at h
              by_cases hbeq : hashItem j == k
              · exact ⟨j, List.mem_cons_self _ _, eq_of_beq hbeq⟩
              · rw [if_neg hbeq] at h
                cases h

lemma mapGet_append (l1 l2 : List (String × Nat)) (k : String) :
    mapGet (l1 ++ l2) k =
      match mapGet l2 k with
      | some v => some v
      | none => mapGet l1 k := by
  induction l1 with
  | nil =>
      rw [List.nil_append]
      cases hm : mapGet l2 k <;> simp [hm, mapGet]
  | cons p l1' ih =>
      obtain ⟨k1, v1⟩ := p
      simp only [List.cons_append, mapGet]
      rw [show (l1'.append l2) = l1' ++ l2 from rfl, ih]
      cases mapGet l2 k <;> cases mapGet l1' k <;> rfl

lemma mapGet_initialEstimates (ts : List (JsValue → JsValue)) (est : JsValue → Nat) :
    ∀ (items : List DataQuickPickItem) (i : DataQuickPickItem), i ∈ items →
    i.skipEstimate = false → (items.map hashItem).Nodup →
    mapGet (initialEstimates ts est items) (hashItem i)
      = some (est (applyTransforms ts i.data.resolved)) := by
  intro items
  induction items with
  | nil => intro i hmem; cases hmem
  | cons j rest ih =>
      intro i hmem hskip hnd
      rcases List.mem_cons.mp hmem with heq | hmem'
      · subst heq
        have hs : setEstimate ts est i
            = some (hashItem i, est (applyTransforms ts i.data.resolved)) := by
          simp [setEstimate, hskip]
        have htail : mapGet (initialEstimates ts est rest) (hashItem i) = none := by
          cases hm : mapGet (initialEstimates ts est rest) (hashItem i) with
          | none => rfl
          | some v =>
              obtain ⟨m, hm1, hm2⟩ :=
                mapGet_filterMap_setEstimate_some ts est rest (hashItem i) v hm
              have hin : hashItem i ∈ rest.map hashItem :=
                hm2 ▸ List.mem_map_of_mem hashItem hm1
              exact absurd hin (List.nodup_cons.mp hnd).1
        rw [initialEstimates, List.filterMap_cons_some hs, mapGet]
        rw [show rest.filterMap (setEstimate ts est) = initialEstimates ts est rest from rfl,
          htail]
        simp
      · have ihr := ih i hmem' hskip (List.nodup_cons.mp hnd).2
        cases hs : setEstimate ts est j with
        | none =>
            rw [initialEstimates, List.filterMap_cons_none hs]
            exact ihr
        | some e =>
            obtain ⟨k1, v1⟩ := e
            rw [initialEstimates, List.filterMap_cons_some hs, mapGet]
            rw [show rest.filterMap (setEstimate ts est) = initialEstimates ts est rest
              from rfl, ihr]

lemma promptUserUiTrace_cons (ts : List (JsValue → JsValue)) (est : JsValue → Nat)
    (st : PickerState) (i0 : DataQuickPickItem) (r : List DataQuickPickItem)
    (hitems : st.items = i0 :: r) :
    promptUserUiTrace true ts est st
      = [UiEvent.stepsSet st.step
          (jsAdd st.totalSteps (mapGet (initialEstimates ts est st.items) (hashItem i0))),
         UiEvent.shown] := by
  simp only [promptUserUiTrace, setEstimatorHook, hitems]
  rfl

/-- C6: with a step estimator set, estimates are computed per visible item and memoized
under the label:description:detail hash; when the active selection changes the displayed
total is recomputed from the (possibly newly computed) estimate of the first active item;
and for a non-empty item list the first item's estimate is applied to the displayed steps
strictly before the picker is shown. -/
theorem c6_estimator_hook :
    (∀ (ts : List (JsValue → JsValue)) (est : JsValue → Nat)
        (items : List DataQuickPickItem) (i : DataQuickPickItem), i ∈ items →
        i.skipEstimate = false → (items.map hashItem).Nodup →
        mapGet (initialEstimates ts est items) (hashItem i)
          = some (est (applyTransforms ts i.data.resolved)))
    ∧ (∀ (ts : List (JsValue → JsValue)) (est : JsValue → Nat) (c t : Int)
        (estimates : List (String × Nat)) (a0 : DataQuickPickItem)
        (rest : List DataQuickPickItem) (e : Nat),
        mapGet estimates (hashItem a0) = some e →
        (onDidChangeActive ts est c t estimates (a0 :: rest)).2 = some (c, t + (e : Int)))
    ∧ (∀ (ts : List (JsValue → JsValue)) (est : JsValue → Nat) (c t : Int)
        (estimates : List (String × Nat)) (a0 : DataQuickPickItem)
        (rest : List DataQuickPickItem),
        mapGet estimates (hashItem a0) = none → a0.skipEstimate = false →
        ((a0 :: rest).map hashItem).Nodup →
        (onDidChangeActive ts est c t estimates (a0 :: rest)).2
          = some (c, t + (est (applyTransforms ts a0.data.resolved) : Int)))
    ∧ (∀ (ts : List (JsValue → JsValue)) (est : JsValue → Nat) (st : PickerState)
        (i0 : DataQuickPickItem) (r : List DataQuickPickItem), st.items = i0 :: r →
        promptUserUiTrace true ts est st
          = [UiEvent.stepsSet st.step
              (jsAdd st.totalSteps
                (mapGet (initialEstimates ts est st.items) (hashItem i0))),
             UiEvent.shown])
    ∧ (∀ (ts : List (JsValue → JsValue)) (est : JsValue → Nat) (st : PickerState)
        (i0 : DataQuickPickItem) (r : List DataQuickPickItem) (c t : Int),
        st.items = i0 :: r → i0.skipEstimate = false →
        (st.items.map hashItem).Nodup → st.step = some c → st.totalSteps = some t →
        promptUserUiTrace true ts est st
          = [UiEvent.stepsSet (some c)
              (some (t + (est (applyTransforms ts i0.data.resolved) : Int))),
             UiEvent.shown]) := by
  refine ⟨mapGet_initialEstimates, ?_, ?_, promptUserUiTrace_cons, ?_⟩
  · intro ts est c t estimates a0 rest e h
    dsimp only [onDidChangeActive]
    have hextra : mapGet ((rest.filter
        (fun item => (mapGet estimates (hashItem item)).isNone)).filterMap
        (setEstimate ts est)) (hashItem a0) = none := by
      cases hm : mapGet ((rest.filter
          (fun item => (mapGet estimates (hashItem item)).isNone)).filterMap
          (setEstimate ts est)) (hashItem a0) with
      | none => rfl
      | some v =>
          obtain ⟨m, hm1, hm2⟩ :=
            mapGet_filterMap_setEstimate_some ts est _ _ v hm
          have hpred := (List.mem_filter.mp hm1).2
          rw [hm2, h] at hpred
          cases hpred
    simp [mapGet_append, hextra, h]
  · intro ts est c t estimates a0 rest hnone hskip hnd
    rw [List.map_cons] at hnd
    dsimp only [onDidChangeActive]
    have hpred : (mapGet estimates (hashItem a0)).isNone = true := by rw [hnone]; rfl
    have hs : setEstimate ts est a0
        = some (hashItem a0, est (applyTransforms ts a0.data.resolved)) := by
      simp [setEstimate, hskip]
    have htail : mapGet ((rest.filter
        (fun item => (mapGet estimates (hashItem item)).isNone)).filterMap
        (setEstimate ts est)) (hashItem a0) = none := by
      cases hm : mapGet ((rest.filter
          (fun item => (mapGet estimates (hashItem item)).isNone)).filterMap
          (setEstimate ts est)) (hashItem a0) with
      | none => rfl
      | some v =>
          obtain ⟨m, hm1, hm2⟩ :=
            mapGet_filterMap_setEstimate_some ts est _ _ v hm
          have hmr : m ∈ rest := (List.mem_filter.mp hm1).1
          have hin : hashItem a0 ∈ rest.map hashItem :=
            hm2 ▸ List.mem_map_of_mem hashItem hmr
          exact absurd hin (List.nodup_cons.mp hnd).1
    rw [List.filter_cons_of_pos, List.filterMap_cons_some hs]
    · simp [mapGet_append, mapGet, htail]
    · exact hpred
  · intro ts est st i0 r c t hitems hskip hnd hstep htotal
    rw [promptUserUiTrace_cons ts est st i0 r hitems, hstep, htotal,
      mapGet_initialEstimates ts est st.items i0
        (by rw [hitems]; exact List.mem_cons_self _ _) hskip hnd]
    rfl

/-- C6 witness: a two-item picker at step 2 of 3 with a constant estimator: the first
item's estimate is folded into the steps display before the picker is shown, and an active
change to an already-memoized item reuses the stored estimate. -/
theorem c6_estimator_hook_witness :
    promptUserUiTrace true [] (fun _ => 2)
        { items := [{ label := "x", data := QuickPickData.val (JsValue.str "xx") },
                    { label := "y", data := QuickPickData.val (JsValue.str "y") }]
          step := some 2, totalSteps := some 3 }
      = [UiEvent.stepsSet (some 2) (some (3 + ((2 : Nat) : Int))), UiEvent.shown]
    ∧ (onDidChangeActive [] (fun _ => 2) 2 3 [("y::", 7)]
        [{ label := "y", data := QuickPickData.val (JsValue.str "y") }]).2
      = some (2, 3 + ((7 : Nat) : Int)) :=
  ⟨c6_estimator_hook.2.2.2.2 [] (fun _ => 2)
      { items := [{ label := "x", data := QuickPickData.val (JsValue.str "xx") },
                  { label := "y", data := QuickPickData.val (JsValue.str "y") }]
        step := some 2, totalSteps := some 3 }
      { label := "x", data := QuickPickData.val (JsValue.str "xx") }
      [{ label := "y", data := QuickPickData.val (JsValue.str "y") }]
      2 3 rfl rfl (by decide) rfl rfl,
    c6_estimator_hook.2.1 [] (fun _ => 2) 2 3 [("y::", 7)]
      { label := "y", data := QuickPickData.val (JsValue.str "y") } [] 7 rfl⟩
